import Mathlib

/-!
Shallow embedding of the user-management subsystem (registration, email
verification, password reset, role-gated access, professional status) and
proofs of the specification claims about it.

Sources embedded directly:
  - src/app/services/email_service.py  (EmailService.send_user_email)
  - src/app/routers/user_routes.py     (verify_email, update_own_profile,
                                        update_professional_status, list_users)
  - src/tests/test_dependencies.py     (the role_checker replica of
                                        app.dependencies.require_role)

UserService (verify_email_with_token, generate_password_reset,
verify_password_reset_token, reset_password_with_token, update, list_users)
and the forgot-password route are code of this repository that is not under
src/ (only their tests and callers are); those parts are modelled from the
spec, each marked `Modelled from the spec:` in its doc comment.
-/

namespace UserMgmt

/-- The persisted user record, after src/app/models (fields referenced by the
routes, the email service, the password-reset tests and the alembic migration
adding password_reset_token / password_reset_token_expires_at).  Timestamps are
modelled as Nat instants on a single consistent clock. -/
structure User where
  id : Nat
  email : String
  hashedPassword : String
  role : String
  firstName : Option String
  bio : Option String
  emailVerified : Bool
  verificationToken : Option String
  passwordResetToken : Option String
  passwordResetTokenExpiresAt : Option Nat
  isProfessional : Bool
  deriving Repr, DecidableEq

/-- The user store: the persistence collaborator of the spec, modelled as the
list of rows. -/
abbrev Db := List User

/-- UserService.get_by_id: first row whose id matches. -/
def get_by_id (db : Db) (uid : Nat) : Option User :=
  db.find? (fun u => u.id == uid)

/-- UserService.get_by_email: first row whose email matches. -/
def get_by_email (db : Db) (email : String) : Option User :=
  db.find? (fun u => u.email == email)

/-- Persisting a mutated row (db.add + commit in the routes): every row with
the same id is replaced by the new value. -/
def save_user (db : Db) (u : User) : Db :=
  db.map (fun v => if v.id == u.id then u else v)

/-! ## Email service (src/app/services/email_service.py) -/

/-- The subject_map dictionary of EmailService.send_user_email
(src/app/services/email_service.py lines 24-28): exactly three keys. -/
def subject_map (email_type : String) : Option String :=
  if email_type == "email_verification" then some "Verify Your Account"
  else if email_type == "password_reset" then some "Password Reset Instructions"
  else if email_type == "account_locked" then some "Account Locked Notification"
  else none

/-- Failure modes of send_user_email: the ValueError raised for a kind missing
from subject_map, and any rendering/SMTP exception from the try block. -/
inductive EmailError where
  | invalidEmailType
  | deliveryFailure
  deriving Repr, DecidableEq

/-- EmailService.send_user_email (src/app/services/email_service.py lines
23-39): raises ValueError "Invalid email type" when email_type is not a key of
subject_map; otherwise renders and sends, re-raising any delivery exception.
The external render/SMTP outcome is the smtp_ok argument. -/
def send_user_email (email_type : String) (smtp_ok : Bool) : Except EmailError Unit :=
  match subject_map email_type with
  | none => .error .invalidEmailType
  | some _ => if smtp_ok then .ok () else .error .deliveryFailure

/-! ## Access control (role_checker replica of require_role, from
src/tests/test_dependencies.py) -/

/-- ASCII uppercasing of Python str.upper as used on role strings:
character-wise Char.toUpper over the characters of the string. -/
def to_upper (s : String) : String :=
  ⟨s.data.map Char.toUpper⟩

/-- The role_checker inner function of require_role, embedded from
src/tests/test_dependencies.py lines 44-51: user_role is the role claim
uppercased, and the request is permitted iff it occurs in required_roles
(otherwise HTTP 403 is raised). -/
def role_checker (user_role : String) (required_roles : List String) : Bool :=
  required_roles.contains (to_upper user_role)

/-! ## Token generator/validator (spec section 4.1; the concrete helpers live
in UserService, which is not under src/) -/

/-- Modelled from the spec: tokens_match(candidate, stored) is exact string
equality, and a stored token of None always yields false regardless of the
candidate (UserService token comparison is missing from src/). -/
def tokens_match (candidate : String) (stored : Option String) : Bool :=
  match stored with
  | none => false
  | some s => candidate == s

/-- Modelled from the spec: is_expired(expiry) is true iff now is greater than
or equal to expiry, on a single consistent clock (UserService expiry check is
missing from src/). -/
def is_expired (now expiry : Nat) : Bool :=
  decide (expiry ≤ now)

/-- Modelled from the spec: credential hashing is an external collaborator
(hash of new_password); modelled as an injective tagging of the plaintext. -/
def hash_password (pw : String) : String :=
  "$2b$12$" ++ pw

/-! ## Password reset service (UserService methods exercised by
src/tests/test_services/test_password_reset.py; the service body is not under
src/) -/

/-- Modelled from the spec: RequestPasswordReset looks the account up by
email; if absent returns none, otherwise overwrites any prior reset token with
a fresh token and absolute expiry now + ttl and returns the updated account
(UserService.generate_password_reset is missing from src/).  The fresh opaque
token is the tok argument. -/
def generate_password_reset (db : Db) (email tok : String) (now ttl : Nat) :
    Option (User × Db) :=
  match get_by_email db email with
  | none => none
  | some u =>
      let u2 := { u with passwordResetToken := some tok,
                         passwordResetTokenExpiresAt := some (now + ttl) }
      some (u2, save_user db u2)

/-- Modelled from the spec: VerifyResetToken(account_id, token) is false if
the account is absent, if the stored token is None, if tokens_match is false,
or if is_expired(expiry) is true, and true otherwise; read-only
(UserService.verify_password_reset_token is missing from src/).  An expiry
absent while a token is present violates the both-present-or-both-absent
invariant and fails closed. -/
def verify_password_reset_token (db : Db) (uid : Nat) (token : String) (now : Nat) : Bool :=
  match get_by_id db uid with
  | none => false
  | some u =>
      if tokens_match token u.passwordResetToken then
        match u.passwordResetTokenExpiresAt with
        | none => false
        | some expiry => !(is_expired now expiry)
      else false

/-- Modelled from the spec: ResetPassword re-runs VerifyResetToken and on
failure returns false with no mutation; on success it replaces the credential
with the hash of new_password, clears the reset token and its expiry together,
and returns true (UserService.reset_password_with_token is missing from
src/). -/
def reset_password_with_token (db : Db) (uid : Nat) (token new_password : String)
    (now : Nat) : Bool × Db :=
  if verify_password_reset_token db uid token now then
    match get_by_id db uid with
    | none => (false, db)
    | some u =>
        let u2 := { u with hashedPassword := hash_password new_password,
                           passwordResetToken := none,
                           passwordResetTokenExpiresAt := none }
        (true, save_user db u2)
  else (false, db)

/-- HTTP-level outcome observable by an external caller: status code plus
response message. -/
structure ApiResponse where
  statusCode : Nat
  message : String
  deriving Repr, DecidableEq

/-- Modelled from the spec: the forgot-password route (exercised by
src/tests/test_api/test_password_reset_api.py but not under src/) issues a
reset token when the account exists and returns the same neutral 200 response
whether or not the email exists, to prevent account enumeration. -/
def forgot_password (db : Db) (email tok : String) (now ttl : Nat) : ApiResponse × Db :=
  match generate_password_reset db email tok now ttl with
  | none =>
      ({ statusCode := 200,
         message := "Password reset instructions sent if the email exists" }, db)
  | some (_, db2) =>
      ({ statusCode := 200,
         message := "Password reset instructions sent if the email exists" }, db2)

/-! ## Registration and email verification -/

/-- Modelled from the spec: Register fails on a duplicate email, otherwise
creates an unverified account with a fresh verification token and the default
role (UserService.register_user is missing from src/).  The fresh opaque token
is the tok argument and the new row id the uid argument. -/
def register_user (db : Db) (uid : Nat) (email pw tok : String) : Option (User × Db) :=
  match get_by_email db email with
  | some _ => none
  | none =>
      let u : User :=
        { id := uid, email := email, hashedPassword := hash_password pw,
          role := "AUTHENTICATED", firstName := none, bio := none,
          emailVerified := false, verificationToken := some tok,
          passwordResetToken := none, passwordResetTokenExpiresAt := none,
          isProfessional := false }
      some (u, u :: db)

/-- Modelled from the spec: VerifyEmail fails if the account is absent or the
token does not match the stored verification token; on match it clears the
verification token and sets verified=true atomically
(UserService.verify_email_with_token is missing from src/). -/
def verify_email_with_token (db : Db) (uid : Nat) (token : String) : Bool × Db :=
  match get_by_id db uid with
  | none => (false, db)
  | some u =>
      if tokens_match token u.verificationToken then
        (true, save_user db { u with emailVerified := true, verificationToken := none })
      else (false, db)

/-- Status component of the JSONResponse of the verify-email route. -/
inductive VerifyEmailStatus where
  | ok200
  | invalidToken400
  | notFound404
  deriving Repr, DecidableEq

/-- The verify_email route (src/app/routers/user_routes.py lines 234-289):
404 when the user does not exist; otherwise runs
UserService.verify_email_with_token and maps true to 200 "Email verified
successfully" and false to 400 "Invalid verification token". -/
def verify_email (db : Db) (uid : Nat) (token : String) : VerifyEmailStatus × Db :=
  match get_by_id db uid with
  | none => (.notFound404, db)
  | some _ =>
      let r := verify_email_with_token db uid token
      if r.1 then (.ok200, r.2) else (.invalidToken400, r.2)

/-! ## Profile self-service (src/app/routers/user_routes.py) -/

/-- The fields a PUT /profile/ body may carry after model_dump(exclude_unset):
some v means the field was supplied with value v, none that it was absent. -/
structure ProfileUpdate where
  first_name : Option String
  bio : Option String
  role : Option String
  deriving Repr, DecidableEq

/-- The role-stripping step of update_own_profile
(src/app/routers/user_routes.py lines 324-327): if "role" is among the
supplied fields it is deleted from the update data. -/
def strip_role_field (p : ProfileUpdate) : ProfileUpdate :=
  { p with role := none }

/-- Modelled from the spec: UserService.update (missing from src/) applies
each supplied field of the update data to the stored account, including a
supplied role, and persists the result; none when the account is absent. -/
def service_update (db : Db) (uid : Nat) (p : ProfileUpdate) : Option (User × Db) :=
  match get_by_id db uid with
  | none => none
  | some u =>
      let u2 : User :=
        { u with
          firstName := match p.first_name with
                       | some v => some v
                       | none => u.firstName,
          bio := match p.bio with
                 | some v => some v
                 | none => u.bio,
          role := match p.role with
                  | some r => r
                  | none => u.role }
      some (u2, save_user db u2)

/-- The update_own_profile route (src/app/routers/user_routes.py lines
291-359): deletes any supplied role from the update data, 404s when the
authenticated account is absent, otherwise applies UserService.update and
returns the updated account. -/
def update_own_profile (db : Db) (uid : Nat) (p : ProfileUpdate) : Option (User × Db) :=
  let update_data := strip_role_field p
  match get_by_id db uid with
  | none => none
  | some _ => service_update db uid update_data

/-! ## Professional status (src/app/routers/user_routes.py lines 361-432) -/

/-- Observable outcome of the professional-status route: whether it succeeded
(false is the 404 branch), the resulting store, and whether a
professional_upgrade email send was attempted. -/
structure ProfStatusOutcome where
  ok : Bool
  db : Db
  emailAttempted : Bool
  deriving Repr, DecidableEq

/-- The update_professional_status route (src/app/routers/user_routes.py
lines 386-414): 404 when the user is absent; when the stored flag already
equals the requested one nothing is written and no email is attempted;
otherwise the flag is updated and committed and, only when upgrading to true,
send_user_email(..., professional_upgrade) is attempted inside try/except —
any exception is logged and swallowed, leaving response and committed state
unchanged. -/
def update_professional_status (db : Db) (uid : Nat) (professional_status : Bool)
    (smtp_ok : Bool) : ProfStatusOutcome :=
  match get_by_id db uid with
  | none => ⟨false, db, false⟩
  | some u =>
      if u.isProfessional != professional_status then
        let u2 := { u with isProfessional := professional_status }
        let db2 := save_user db u2
        if professional_status then
          match send_user_email "professional_upgrade" smtp_ok with
          | .ok _ => ⟨true, db2, true⟩
          | .error _ => ⟨true, db2, true⟩
        else ⟨true, db2, false⟩
      else ⟨true, db, false⟩

/-! ## User listing (src/app/routers/user_routes.py lines 167-191) -/

/-- The UserListResponse constructed by the list_users route. -/
structure UserListResp where
  total : Nat
  page : Nat
  size : Nat
  items : List User
  deriving Repr, DecidableEq

/-- Modelled from the spec: UserService.list_users (missing from src/) is the
list(offset, limit) of the persistence collaborator. -/
def service_list_users (db : Db) (skip limit : Nat) : List User :=
  (db.drop skip).take limit

/-- The list_users route (src/app/routers/user_routes.py lines 167-191):
fetches the page, then computes page := skip // limit + 1 and
size := len(items).  The division by limit is unguarded in the source, so
limit = 0 is the ZeroDivisionError branch, embedded as none. -/
def list_users (db : Db) (skip limit : Nat) : Option UserListResp :=
  if limit = 0 then none
  else
    let users := service_list_users db skip limit
    some { total := db.length, page := skip / limit + 1,
           size := users.length, items := users }

/-! ## Sample data used by the witnesses -/

/-- Freshly registered account, as register_user creates it. -/
def w3_user : User :=
  { id := 1, email := "alice@example.com", hashedPassword := hash_password "pw1",
    role := "AUTHENTICATED", firstName := none, bio := none,
    emailVerified := false, verificationToken := some "tok1",
    passwordResetToken := none, passwordResetTokenExpiresAt := none,
    isProfessional := false }

/-- Verified account holding an unexpired reset token (expiry 100). -/
def w4_user : User :=
  { id := 2, email := "bob@example.com", hashedPassword := hash_password "old",
    role := "AUTHENTICATED", firstName := none, bio := none,
    emailVerified := true, verificationToken := none,
    passwordResetToken := some "rtok4", passwordResetTokenExpiresAt := some 100,
    isProfessional := false }

/-- Account holding a reset token, probed with a wrong candidate. -/
def w5_user : User :=
  { id := 3, email := "carol@example.com", hashedPassword := hash_password "old",
    role := "AUTHENTICATED", firstName := none, bio := none,
    emailVerified := true, verificationToken := none,
    passwordResetToken := some "rtok5", passwordResetTokenExpiresAt := some 100,
    isProfessional := false }

/-- Account whose reset token expires exactly at instant 100. -/
def w6_user : User :=
  { id := 4, email := "dave@example.com", hashedPassword := hash_password "old",
    role := "AUTHENTICATED", firstName := none, bio := none,
    emailVerified := true, verificationToken := none,
    passwordResetToken := some "rtok6", passwordResetTokenExpiresAt := some 100,
    isProfessional := false }

/-- Non-admin account updating its own profile. -/
def w8_user : User :=
  { id := 6, email := "erin@example.com", hashedPassword := hash_password "pw",
    role := "AUTHENTICATED", firstName := some "Old", bio := some "bio",
    emailVerified := true, verificationToken := none,
    passwordResetToken := none, passwordResetTokenExpiresAt := none,
    isProfessional := false }

/-- Account not yet professional, about to be upgraded. -/
def w9_user : User :=
  { id := 7, email := "frank@example.com", hashedPassword := hash_password "pw",
    role := "AUTHENTICATED", firstName := some "Frank", bio := none,
    emailVerified := true, verificationToken := none,
    passwordResetToken := none, passwordResetTokenExpiresAt := none,
    isProfessional := false }

/-- A row for the pagination witness. -/
def w10_user : User :=
  { id := 8, email := "gail@example.com", hashedPassword := hash_password "pw",
    role := "AUTHENTICATED", firstName := none, bio := none,
    emailVerified := true, verificationToken := none,
    passwordResetToken := none, passwordResetTokenExpiresAt := none,
    isProfessional := false }

/-! ## Helper lemmas -/

/-- Reading back a row after save_user: if uid resolved to u before the save
and the saved row u2 keeps the same id, the lookup now resolves to u2. -/
theorem get_by_id_save_eq (db : Db) (uid : Nat) (u u2 : User)
    (hu : get_by_id db uid = some u) (hid : u2.id = u.id) :
    get_by_id (save_user db u2) uid = some u2 := by
  induction db with
  | nil => simp [get_by_id] at hu
  | cons v vs ih =>
      rw [get_by_id, List.find?] at hu
      rw [save_user, List.map_cons]
      by_cases hv : v.id = uid
      · rw [show (v.id == uid) = true by simpa using hv] at hu
        injection hu with huv
        subst huv
        rw [if_pos (by simpa using hid.symm)]
        have h2 : u2.id = uid := hid.trans hv
        rw [get_by_id, List.find?]
        rw [show (u2.id == uid) = true by simpa using h2]
      · rw [show (v.id == uid) = false by simpa using hv] at hu
        have hfound := List.find?_some hu
        have huid : u.id = uid := by simpa using hfound
        rw [if_neg (by simpa using fun h => hv (h.trans (hid.symm ▸ huid)))]
        have htail := ih hu
        rw [get_by_id, List.find?]
        rw [show (v.id == uid) = false by simpa using hv]
        rw [get_by_id] at htail
        rw [save_user] at htail
        exact htail

/-- Characterization of the reset-token check: it returns true exactly when
the account exists, its stored token equals the candidate, and the expiry is
present and strictly in the future. -/
theorem verify_reset_token_true_iff (db : Db) (uid : Nat) (token : String) (now : Nat) :
    verify_password_reset_token db uid token now = true ↔
      ∃ u, get_by_id db uid = some u ∧ u.passwordResetToken = some token ∧
        ∃ e, u.passwordResetTokenExpiresAt = some e ∧ now < e := by
  unfold verify_password_reset_token
  cases hu : get_by_id db uid with
  | none => simp
  | some u =>
      cases hst : u.passwordResetToken with
      | none => simp [tokens_match, hst]
      | some s =>
          cases hex : u.passwordResetTokenExpiresAt with
          | none => simp [tokens_match, hst, hex]
          | some e =>
              by_cases hts : token = s
              · subst hts
                simp [tokens_match, hst, hex, is_expired, Nat.not_le]
              · simp [tokens_match, hst, hex, hts, Ne.symm hts]

/-- A failed reset-token check makes ResetPassword a pure no-op returning
false. -/
theorem reset_of_verify_false (db : Db) (uid : Nat) (token new_password : String)
    (now : Nat) (h : verify_password_reset_token db uid token now = false) :
    reset_password_with_token db uid token new_password now = (false, db) := by
  rw [reset_password_with_token, h]
  simp

/-- The verify-email route on an account whose stored verification token
matches: 200, token consumed, verified set. -/
theorem verify_email_ok (db : Db) (uid : Nat) (u : User) (tok : String)
    (hu : get_by_id db uid = some u) (htok : u.verificationToken = some tok) :
    verify_email db uid tok =
      (.ok200, save_user db { u with emailVerified := true, verificationToken := none }) := by
  unfold verify_email verify_email_with_token
  rw [hu]
  simp [tokens_match, htok]

/-- The verify-email route on an account whose verification token is absent:
400, store untouched. -/
theorem verify_email_no_token (db : Db) (uid : Nat) (u : User) (tok : String)
    (hu : get_by_id db uid = some u) (hnone : u.verificationToken = none) :
    verify_email db uid tok = (.invalidToken400, db) := by
  unfold verify_email verify_email_with_token
  rw [hu]
  simp [tokens_match, hnone]

/-! ## Claim theorems -/

/-- C1: the spec fixes the notification-kind set as email_verification,
password_reset, account_locked and professional_upgrade, yet
EmailService.send_user_email accepts only the three subject_map keys: for
professional_upgrade — the kind update_professional_status actually sends — it
raises ValueError "Invalid email type" regardless of the delivery collaborator,
so the professional-upgrade notification can never be delivered. -/
theorem email_service_rejects_professional_upgrade :
    (∀ smtp_ok : Bool,
        send_user_email "professional_upgrade" smtp_ok =
          Except.error EmailError.invalidEmailType) ∧
    send_user_email "email_verification" true = Except.ok () ∧
    send_user_email "password_reset" true = Except.ok () ∧
    send_user_email "account_locked" true = Except.ok () := by
  refine ⟨fun smtp_ok => ?_, rfl, rfl, rfl⟩
  cases smtp_ok <;> rfl

/-- C2: the forgot-password operation returns one and the same successful
200 response for every store, email, token, clock and ttl; in particular the
response is identical whether or not an account with the email exists, so
account existence is not inferable from the response. -/
theorem forgot_password_response_independent_of_existence
    (db : Db) (email tok : String) (now ttl : Nat) :
    (forgot_password db email tok now ttl).1 =
      { statusCode := 200,
        message := "Password reset instructions sent if the email exists" } := by
  unfold forgot_password
  cases generate_password_reset db email tok now ttl with
  | none => rfl
  | some p => rfl

/-- C6: VerifyResetToken returns true exactly when the account exists, the
stored token is present and equals the candidate, and the expiry is present
with now strictly before it — so an absent account, a None token, a mismatch
or an expired token all yield false; and at the boundary now = expiry it
already returns false (now greater or equal to expiry counts as expired).  The
embedded operation consumes nothing: it returns only the Bool, never a new
store. -/
theorem verify_reset_token_characterization :
    (∀ (db : Db) (uid : Nat) (token : String) (now : Nat),
        verify_password_reset_token db uid token now = true ↔
          ∃ u, get_by_id db uid = some u ∧ u.passwordResetToken = some token ∧
            ∃ e, u.passwordResetTokenExpiresAt = some e ∧ now < e) ∧
    (∀ (db : Db) (uid : Nat) (token : String) (u : User) (e : Nat),
        get_by_id db uid = some u → u.passwordResetToken = some token →
        u.passwordResetTokenExpiresAt = some e →
        verify_password_reset_token db uid token e = false) := by
  constructor
  · exact verify_reset_token_true_iff
  · intro db uid token u e hu hst hex
    rw [Bool.eq_false_iff]
    intro hc
    obtain ⟨u2, hu2, hst2, e2, hex2, hlt⟩ := (verify_reset_token_true_iff db uid token e).mp hc
    rw [hu] at hu2
    injection hu2 with hu2
    subst hu2
    rw [hex] at hex2
    injection hex2 with hex2
    subst hex2
    exact absurd hlt (lt_irrefl e)

/-- Witness for C6: the account w6_user holds token rtok6 expiring exactly at
instant 100, and the check at now = 100 returns false. -/
theorem verify_reset_token_characterization_witness :
    verify_password_reset_token [w6_user] 4 "rtok6" 100 = false :=
  verify_reset_token_characterization.2 [w6_user] 4 "rtok6" w6_user 100 rfl rfl rfl

/-- C7: the role check uppercases the role claim of the caller before comparing it
with the required roles, so "admin", "Admin" and "ADMIN" all authorize against
ADMIN; a role whose normalization is not among the required roles — including
the empty string and unknown roles — is always refused (fails closed). -/
theorem role_check_normalizes_case_and_fails_closed :
    role_checker "admin" ["ADMIN"] = true ∧
    role_checker "Admin" ["ADMIN"] = true ∧
    role_checker "ADMIN" ["ADMIN"] = true ∧
    role_checker "user" ["ADMIN"] = false ∧
    role_checker "" ["ADMIN"] = false ∧
    role_checker "manager" ["ADMIN", "MANAGER"] = true ∧
    (∀ (caller_role : String) (required_roles : List String),
        (∀ r ∈ required_roles, to_upper caller_role ≠ r) →
        role_checker caller_role required_roles = false) := by
  refine ⟨by decide, by decide, by decide, by decide, by decide, by decide, ?_⟩
  intro caller_role required_roles h
  rw [role_checker, Bool.eq_false_iff]
  intro hc
  obtain ⟨r, hr, hbeq⟩ := List.contains_iff_exists_mem_beq.mp hc
  exact h r hr (by simpa using hbeq)

/-- Witness for C7: the unknown role "guest" is refused against ADMIN. -/
theorem role_check_normalizes_case_and_fails_closed_witness :
    role_checker "guest" ["ADMIN"] = false :=
  role_check_normalizes_case_and_fails_closed.2.2.2.2.2.2 "guest" ["ADMIN"] (by decide)

/-- C10: with limit at least 1 the list-users route answers with
page = skip / limit + 1 (floor division) and size equal to the number of items
in the returned page; with limit = 0 the unguarded division is the
ZeroDivisionError branch, so limit at least 1 is a necessary precondition. -/
theorem list_users_page_and_size (db : Db) (skip limit : Nat) :
    (1 ≤ limit →
        ∃ resp, list_users db skip limit = some resp ∧
          resp.page = skip / limit + 1 ∧
          resp.size = resp.items.length ∧
          resp.items = (db.drop skip).take limit ∧
          resp.total = db.length) ∧
    list_users db skip 0 = none := by
  constructor
  · intro h
    unfold list_users
    rw [if_neg (by omega)]
    exact ⟨_, rfl, rfl, rfl, rfl, rfl⟩
  · rfl

/-- Witness for C10: one stored row, skip 0, limit 10 gives page 1 and size 1. -/
theorem list_users_page_and_size_witness :
    ∃ resp, list_users [w10_user] 0 10 = some resp ∧
      resp.page = 0 / 10 + 1 ∧
      resp.size = resp.items.length ∧
      resp.items = (([w10_user] : Db).drop 0).take 10 ∧
      resp.total = ([w10_user] : Db).length :=
  (list_users_page_and_size [w10_user] 0 10).1 (by decide)

/-- C4: on an account holding the matching, unexpired reset token,
ResetPassword succeeds, stores exactly the hash of the new password and clears
the reset token and its expiry together — both become absent — and a repeated
call with the same token afterwards fails and changes nothing. -/
theorem reset_password_success_exactly_once
    (db : Db) (uid : Nat) (u : User) (token new1 new2 : String) (now e : Nat)
    (hu : get_by_id db uid = some u)
    (hst : u.passwordResetToken = some token)
    (hex : u.passwordResetTokenExpiresAt = some e)
    (hfresh : now < e) :
    (reset_password_with_token db uid token new1 now).1 = true ∧
    (∃ u2, get_by_id (reset_password_with_token db uid token new1 now).2 uid = some u2 ∧
        u2.hashedPassword = hash_password new1 ∧
        u2.passwordResetToken = none ∧
        u2.passwordResetTokenExpiresAt = none) ∧
    reset_password_with_token
        (reset_password_with_token db uid token new1 now).2 uid token new2 now =
      (false, (reset_password_with_token db uid token new1 now).2) := by
  have hver : verify_password_reset_token db uid token now = true :=
    (verify_reset_token_true_iff db uid token now).mpr ⟨u, hu, hst, e, hex, hfresh⟩
  have hred : reset_password_with_token db uid token new1 now =
      (true, save_user db { u with hashedPassword := hash_password new1,
                                   passwordResetToken := none,
                                   passwordResetTokenExpiresAt := none }) := by
    unfold reset_password_with_token
    rw [hver]
    simp [hu]
  have hget2 : get_by_id
      (save_user db { u with hashedPassword := hash_password new1,
                             passwordResetToken := none,
                             passwordResetTokenExpiresAt := none }) uid =
      some { u with hashedPassword := hash_password new1,
                    passwordResetToken := none,
                    passwordResetTokenExpiresAt := none } :=
    get_by_id_save_eq db uid u _ hu rfl
  refine ⟨by rw [hred], ?_, ?_⟩
  · rw [hred]
    exact ⟨_, hget2, rfl, rfl, rfl⟩
  · rw [hred]
    apply reset_of_verify_false
    rw [Bool.eq_false_iff]
    intro hc
    obtain ⟨u3, hu3, hst3, e3, hex3, hlt⟩ :=
      (verify_reset_token_true_iff _ uid token now).mp hc
    rw [hget2] at hu3
    injection hu3 with hu3
    subst hu3
    exact Option.noConfusion hst3

/-- Witness for C4: w4_user holds token rtok4 with expiry 100; at now = 50 the
reset succeeds once and the repeat with the same token fails. -/
theorem reset_password_success_exactly_once_witness :
    (reset_password_with_token [w4_user] 2 "rtok4" "NewPw1" 50).1 = true ∧
    (∃ u2, get_by_id (reset_password_with_token [w4_user] 2 "rtok4" "NewPw1" 50).2 2 =
        some u2 ∧
        u2.hashedPassword = hash_password "NewPw1" ∧
        u2.passwordResetToken = none ∧
        u2.passwordResetTokenExpiresAt = none) ∧
    reset_password_with_token
        (reset_password_with_token [w4_user] 2 "rtok4" "NewPw1" 50).2 2 "rtok4" "NewPw2" 50 =
      (false, (reset_password_with_token [w4_user] 2 "rtok4" "NewPw1" 50).2) :=
  reset_password_success_exactly_once [w4_user] 2 w4_user "rtok4" "NewPw1" "NewPw2" 50 100
    rfl rfl rfl (by decide)

/-- C5: ResetPassword with a candidate that does not match the stored reset
token, or with the token already expired, returns false and leaves the store
untouched: the credential is unchanged and the real token and expiry are not
cleared. -/
theorem reset_password_invalid_token_no_mutation
    (db : Db) (uid : Nat) (u : User) (token new_password : String) (now : Nat)
    (hu : get_by_id db uid = some u)
    (hbad : u.passwordResetToken ≠ some token ∨
            ∀ e, u.passwordResetTokenExpiresAt = some e → e ≤ now) :
    reset_password_with_token db uid token new_password now = (false, db) := by
  apply reset_of_verify_false
  rw [Bool.eq_false_iff]
  intro hc
  obtain ⟨u2, hu2, hst2, e2, hex2, hlt⟩ :=
    (verify_reset_token_true_iff db uid token now).mp hc
  rw [hu] at hu2
  injection hu2 with hu2
  subst hu2
  cases hbad with
  | inl h => exact h hst2
  | inr h => exact absurd hlt (not_lt.mpr (h e2 hex2))

/-- Witness for C5: probing w5_user (stored token rtok5) with the wrong
candidate leaves the store unchanged and returns false. -/
theorem reset_password_invalid_token_no_mutation_witness :
    reset_password_with_token [w5_user] 3 "wrongtok" "NewPw" 50 = (false, [w5_user]) :=
  reset_password_invalid_token_no_mutation [w5_user] 3 w5_user "wrongtok" "NewPw" 50
    rfl (Or.inl (by decide))

/-- C3: after Register, the verify-email route with the correct token answers
200 exactly once — the account becomes verified and the token is cleared —
and a second call with the same, now consumed, token answers 400 Invalid
verification token and changes nothing. -/
theorem register_then_verify_email_exactly_once
    (db : Db) (uid : Nat) (email pw tok : String) (u : User) (db1 : Db)
    (hreg : register_user db uid email pw tok = some (u, db1)) :
    (verify_email db1 uid tok).1 = .ok200 ∧
    (∃ u2, get_by_id (verify_email db1 uid tok).2 uid = some u2 ∧
        u2.emailVerified = true ∧ u2.verificationToken = none) ∧
    verify_email (verify_email db1 uid tok).2 uid tok =
      (.invalidToken400, (verify_email db1 uid tok).2) := by
  unfold register_user at hreg
  cases hmail : get_by_email db email with
  | some v => rw [hmail] at hreg; exact absurd hreg (by simp)
  | none =>
      rw [hmail] at hreg
      simp only [Option.some.injEq, Prod.mk.injEq] at hreg
      obtain ⟨hu, hdb⟩ := hreg
      have hid : u.id = uid := by rw [← hu]
      have htok : u.verificationToken = some tok := by rw [← hu]
      have hdb1 : db1 = u :: db := by rw [← hdb, ← hu]
      have h1 : get_by_id db1 uid = some u := by
        rw [hdb1, get_by_id, List.find?]
        rw [show (u.id == uid) = true by simpa using hid]
      have hv1 := verify_email_ok db1 uid u tok h1 htok
      have hget2 : get_by_id
          (save_user db1 { u with emailVerified := true, verificationToken := none }) uid =
          some { u with emailVerified := true, verificationToken := none } :=
        get_by_id_save_eq db1 uid u _ h1 rfl
      have hv2 := verify_email_no_token _ uid
        { u with emailVerified := true, verificationToken := none } tok hget2 rfl
      exact ⟨by rw [hv1],
        ⟨{ u with emailVerified := true, verificationToken := none },
          by rw [hv1]; exact hget2, rfl, rfl⟩,
        by rw [hv1]; exact hv2⟩

/-- Witness for C3: registering alice in an empty store and verifying twice
with the issued token tok1. -/
theorem register_then_verify_email_exactly_once_witness :
    (verify_email [w3_user] 1 "tok1").1 = .ok200 ∧
    (∃ u2, get_by_id (verify_email [w3_user] 1 "tok1").2 1 = some u2 ∧
        u2.emailVerified = true ∧ u2.verificationToken = none) ∧
    verify_email (verify_email [w3_user] 1 "tok1").2 1 "tok1" =
      (.invalidToken400, (verify_email [w3_user] 1 "tok1").2) :=
  register_then_verify_email_exactly_once [] 1 "alice@example.com" "pw1" "tok1"
    w3_user [w3_user] (by decide)

/-- C8: a profile self-update whose payload carries both a display field and a
role value succeeds — the role field does not make it fail — applies the
display field, and leaves the stored role exactly as it was: the role value
is silently stripped before the update is applied. -/
theorem update_own_profile_strips_role
    (db : Db) (uid : Nat) (u : User) (p : ProfileUpdate) (x r : String)
    (hu : get_by_id db uid = some u)
    (hfn : p.first_name = some x)
    (_hrole : p.role = some r) :
    ∃ u2 db2, update_own_profile db uid p = some (u2, db2) ∧
      u2.role = u.role ∧
      u2.firstName = some x ∧
      get_by_id db2 uid = some u2 := by
  unfold update_own_profile service_update strip_role_field
  rw [hu]
  refine ⟨_, _, rfl, rfl, ?_, ?_⟩
  · simp [hfn]
  · exact get_by_id_save_eq db uid u _ hu rfl

/-- Witness for C8: erin sends first_name X together with role ADMIN; the
name is applied and the role stays AUTHENTICATED. -/
theorem update_own_profile_strips_role_witness :
    ∃ u2 db2, update_own_profile [w8_user] 6
        { first_name := some "X", bio := none, role := some "ADMIN" } = some (u2, db2) ∧
      u2.role = w8_user.role ∧
      u2.firstName = some "X" ∧
      get_by_id db2 6 = some u2 :=
  update_own_profile_strips_role [w8_user] 6 w8_user
    { first_name := some "X", bio := none, role := some "ADMIN" } "X" "ADMIN" rfl rfl rfl

/-- C9: the professional-status route is a pure no-op — no write, no email
attempt — when the stored flag already equals the requested one; otherwise it
commits the new flag and attempts the upgrade email exactly when the
transition is to true; and the whole observable outcome is identical whatever
the email collaborator does, so a notification failure neither fails the
request nor rolls back the committed change. -/
theorem update_professional_status_best_effort
    (db : Db) (uid : Nat) (u : User) (desired : Bool)
    (hu : get_by_id db uid = some u) :
    (u.isProfessional = desired →
        ∀ smtp_ok : Bool,
          update_professional_status db uid desired smtp_ok = ⟨true, db, false⟩) ∧
    (u.isProfessional ≠ desired →
        ∀ smtp_ok : Bool,
          (update_professional_status db uid desired smtp_ok).ok = true ∧
          (update_professional_status db uid desired smtp_ok).emailAttempted = desired ∧
          ∃ u2, get_by_id (update_professional_status db uid desired smtp_ok).db uid =
              some u2 ∧
            u2.isProfessional = desired) ∧
    (∀ s1 s2 : Bool,
        update_professional_status db uid desired s1 =
          update_professional_status db uid desired s2) := by
  refine ⟨?_, ?_, ?_⟩
  · intro h smtp_ok
    unfold update_professional_status
    rw [hu]
    simp [h]
  · intro h smtp_ok
    have hbne : (u.isProfessional != desired) = true := bne_iff_ne.mpr h
    unfold update_professional_status
    rw [hu]
    simp only [hbne, if_true]
    cases desired with
    | true =>
        cases hsend : send_user_email "professional_upgrade" smtp_ok with
        | ok v =>
            exact ⟨rfl, rfl, _, get_by_id_save_eq db uid u _ hu rfl, rfl⟩
        | error err =>
            exact ⟨rfl, rfl, _, get_by_id_save_eq db uid u _ hu rfl, rfl⟩
    | false =>
        exact ⟨rfl, rfl, _, get_by_id_save_eq db uid u _ hu rfl, rfl⟩
  · intro s1 s2
    by_cases h : u.isProfessional = desired
    · unfold update_professional_status
      rw [hu]
      simp [h]
    · have hbne : (u.isProfessional != desired) = true := bne_iff_ne.mpr h
      unfold update_professional_status
      rw [hu]
      simp only [hbne, if_true]
      cases desired with
      | true =>
          cases send_user_email "professional_upgrade" s1 <;>
            cases send_user_email "professional_upgrade" s2 <;> rfl
      | false => rfl

/-- Witness for C9: upgrading frank to professional yields the same outcome
whether the upgrade email succeeds or fails. -/
theorem update_professional_status_best_effort_witness :
    update_professional_status [w9_user] 7 true true =
      update_professional_status [w9_user] 7 true false :=
  (update_professional_status_best_effort [w9_user] 7 w9_user true rfl).2.2 true false

end UserMgmt
